import Mathlib

/-!
Verification of the iCESugar-nano FPGA flash tool (`flash_fpga.py`) against its
natural-language specification.

The Python source is shallowly embedded: outcomes of external processes, the
filesystem and the process environment are explicit oracle/state parameters,
and every fallible code path returns `Except PyExc`.  Definitions follow the
source function by function; line numbers refer to `src/flash_fpga.py`.
-/

namespace FlashFpga

/-- The Python exception classes the tool can raise or catch: `FPGABuildError`
(the domain error, line 90) and any other `Exception` subclass.  Asynchronous
`BaseException`s (`KeyboardInterrupt`, `SystemExit`) raised by signal delivery
are outside this synchronous model. -/
inductive PyExc
  | fpgaBuildError (msg : String)
  | otherExc (msg : String)
deriving DecidableEq, Repr

def isOkE {α : Type} : Except PyExc α → Bool
  | Except.ok _ => true
  | Except.error _ => false

def isFpgaErr : PyExc → Bool
  | PyExc.fpgaBuildError _ => true
  | PyExc.otherExc _ => false

def msgOf : PyExc → String
  | PyExc.fpgaBuildError m => m
  | PyExc.otherExc m => m

/-- `MAX_RETRIES = 3` (line 39). -/
def MAX_RETRIES : Nat := 3

/-- `RETRY_DELAY = 2` (line 40). -/
def RETRY_DELAY : Nat := 2

/-- The `for attempt in range(max_retries)` loop of `retry_operation`
(lines 121-140).  The first `Nat` argument is the fuel
`max_retries - attempt`, i.e. the number of loop iterations left; running out
of fuel is exactly the loop range being exhausted, which reaches the final
`raise FPGABuildError(f"... failed after {max_retries} attempts")` (line 140).

The operation `op` is an arbitrary stateful Python callable: it receives the
attempt index and the world state and returns an `Except` outcome plus the
updated state.  `shutdown attempt` is the value the global `shutdown_requested`
flag has when attempt `attempt` starts (the flag is re-read each iteration,
line 125).  Note that the `raise FPGABuildError("Operation cancelled by user")`
of line 126 sits inside the `try:` block, so it is caught by the
`except Exception` of line 132 like any operation failure.  The third
component of the result collects the `time.sleep(delay * (2 ** attempt))`
durations in order (line 137). -/
def retryAux {σ α : Type} (op : Nat → σ → Except PyExc α × σ) (shutdown : Nat → Bool)
    (maxRetries delay : Nat) (opName : String) :
    Nat → Nat → σ → Except PyExc α × σ × List Nat
  | 0, _, s =>
    (Except.error (PyExc.fpgaBuildError
      (opName ++ " failed after " ++ toString maxRetries ++ " attempts")), s, [])
  | remaining + 1, attempt, s =>
    let step : Except PyExc α × σ :=
      if shutdown attempt then
        (Except.error (PyExc.fpgaBuildError "Operation cancelled by user"), s)
      else op attempt s
    match step with
    | (Except.ok v, s') => (Except.ok v, s', [])
    | (Except.error e, s') =>
      if attempt = maxRetries - 1 then
        (Except.error e, s', [])
      else
        let rest := retryAux op shutdown maxRetries delay opName remaining (attempt + 1) s'
        (rest.1, rest.2.1, delay * 2 ^ attempt :: rest.2.2)

/-- `retry_operation(operation, max_retries, delay, operation_name)`
(lines 121-140), started at attempt 0 with full fuel. -/
def retry_operation {σ α : Type} (op : Nat → σ → Except PyExc α × σ) (shutdown : Nat → Bool)
    (maxRetries delay : Nat) (opName : String) (s : σ) : Except PyExc α × σ × List Nat :=
  retryAux op shutdown maxRetries delay opName maxRetries 0 s

/-- An operation whose `Except` outcome depends only on the attempt index,
while its state effect is an arbitrary per-attempt update.  All operations the
tool wraps in `retry_operation` have this shape. -/
def obliviousOp {σ α : Type} (resOf : Nat → Except PyExc α) (upd : Nat → σ → σ) :
    Nat → σ → Except PyExc α × σ :=
  fun n s => (resOf n, upd n s)

/-- A stateless operation (state type `Unit`). -/
def pureOp {α : Type} (resOf : Nat → Except PyExc α) : Nat → Unit → Except PyExc α × Unit :=
  obliviousOp resOf (fun _ s => s)

/-- An operation whose only state effect is appending its per-attempt event
trace `evOf n` to an event log. -/
def appendOp {ε α : Type} (resOf : Nat → Except PyExc α) (evOf : Nat → List ε) :
    Nat → List ε → Except PyExc α × List ε :=
  obliviousOp resOf (fun n tr => tr ++ evOf n)

/-- Outcome schedule of an operation that always fails with a non-domain
exception carrying its attempt index in the message (used to observe which
attempt's failure `retry_operation` propagates). -/
def c5resOf : Nat → Except PyExc Nat := fun n =>
  Except.error (PyExc.otherExc ("boom" ++ toString n))

/-- Outcome schedule of a stage that fails on attempts 0 and 1 and succeeds
on attempt 2 (1-based attempts 1, 2 and 3). -/
def c6resOf : Nat → Except PyExc Bool := fun n =>
  if n < 2 then Except.error (PyExc.fpgaBuildError "nextpnr-ice40 failed.") else Except.ok true

/-! ### Filesystem model

The filesystem is an association list from path to file size (bytes).  Only
the operations the tool performs are modelled: create/overwrite
(tool output, `shutil.copy2`), existence test (`os.path.exists`), size lookup
and removal (`os.remove`; the code ignores `OSError` from removal — the model
takes the normal case in which removal succeeds). -/

abbrev FS := List (String × Nat)

def fsExists (fs : FS) (p : String) : Bool :=
  fs.any (fun kv => kv.1 == p)

def fsSize (fs : FS) (p : String) : Option Nat :=
  (fs.find? (fun kv => kv.1 == p)).map (fun kv => kv.2)

def fsRemove (fs : FS) (p : String) : FS :=
  fs.filter (fun kv => kv.1 != p)

def fsSet (fs : FS) (p : String) (sz : Nat) : FS :=
  fsRemove fs p ++ [(p, sz)]

def fsWriteAll (fs : FS) (writes : List (String × Nat)) : FS :=
  writes.foldl (fun acc kv => fsSet acc kv.1 kv.2) fs

/-! ### Build pipeline (`build_fpga`, lines 770-847) -/

/-- The `output_files` dictionary of lines 787-791: `out/<basename>.json`,
`out/<basename>.asc`, `out/<basename>.bin`. -/
structure OutPaths where
  json : String
  asc : String
  bin : String
deriving DecidableEq, Repr

def output_files (basename : String) : OutPaths :=
  { json := "out/" ++ basename ++ ".json"
    asc := "out/" ++ basename ++ ".asc"
    bin := "out/" ++ basename ++ ".bin" }

/-- External-world behaviour of one build: for each of the three stage
closures (`synthesis_step`, `place_route_step`, `bitstream_step`) and each
attempt index, whether the tool invocation exits successfully and which
files it writes (a tool may write partial output and still fail).  The
`shutdown*` schedules give the value of the global `shutdown_requested` flag
at the start of each retry attempt of the corresponding stage. -/
structure BuildWorld where
  synth : Nat → Bool × List (String × Nat)
  pnr : Nat → Bool × List (String × Nat)
  pack : Nat → Bool × List (String × Nat)
  shutdownSynth : Nat → Bool
  shutdownPnr : Nat → Bool
  shutdownPack : Nat → Bool

/-- One attempt of a build stage: the external tool runs (writing its files),
and a failing exit becomes the `FPGABuildError` that `run_cmd`
(lines 280-344) raises — `run_cmd` converts every failure mode
(`TimeoutExpired`, `CalledProcessError`, `FileNotFoundError`, any other
`Exception`) into an `FPGABuildError` with message prefix `msg`. -/
def stageOp (msg : String) (stage : Nat → Bool × List (String × Nat)) :
    Nat → FS → Except PyExc Unit × FS :=
  fun n fs =>
    let out := stage n
    ((if out.1 then Except.ok () else Except.error (PyExc.fpgaBuildError msg)),
      fsWriteAll fs out.2)

/-- Body of the `try:` block of `build_fpga` (lines 826-837): the three
stages wrapped in `retry_operation` in order, then the existence check of
every expected output file (lines 832-834), iterated in dict insertion order
json, asc, bin. -/
def build_attempt (w : BuildWorld) (basename : String) (fs : FS) :
    Except PyExc OutPaths × FS :=
  let o := output_files basename
  let r1 := retry_operation (stageOp "Yosys synthesis failed." w.synth) w.shutdownSynth
    MAX_RETRIES RETRY_DELAY "Yosys synthesis" fs
  match r1.1 with
  | Except.error e => (Except.error e, r1.2.1)
  | Except.ok _ =>
    let r2 := retry_operation (stageOp "nextpnr-ice40 failed." w.pnr) w.shutdownPnr
      MAX_RETRIES RETRY_DELAY "Place and route" r1.2.1
    match r2.1 with
    | Except.error e => (Except.error e, r2.2.1)
    | Except.ok _ =>
      let r3 := retry_operation (stageOp "icepack failed." w.pack) w.shutdownPack
        MAX_RETRIES RETRY_DELAY "Bitstream generation" r2.2.1
      match r3.1 with
      | Except.error e => (Except.error e, r3.2.1)
      | Except.ok _ =>
        if fsExists r3.2.1 o.json then
          if fsExists r3.2.1 o.asc then
            if fsExists r3.2.1 o.bin then (Except.ok o, r3.2.1)
            else (Except.error (PyExc.fpgaBuildError
              ("Expected output file not found: " ++ o.bin)), r3.2.1)
          else (Except.error (PyExc.fpgaBuildError
            ("Expected output file not found: " ++ o.asc)), r3.2.1)
        else (Except.error (PyExc.fpgaBuildError
          ("Expected output file not found: " ++ o.json)), r3.2.1)

/-- `build_fpga` (lines 770-847): run the pipeline; on any exception, the
`except` handler of lines 839-847 removes each of the three output paths
that exists and re-raises the error. -/
def build_fpga (w : BuildWorld) (basename : String) (fs : FS) :
    Except PyExc OutPaths × FS :=
  let o := output_files basename
  match build_attempt w basename fs with
  | (Except.ok v, fs') => (Except.ok v, fs')
  | (Except.error e, fs') =>
    (Except.error e, fsRemove (fsRemove (fsRemove fs' o.json) o.asc) o.bin)

/-- A build world in which every stage succeeds on its first attempt but
writes an EMPTY (size 0) output file.  A tool can exit 0 with empty output;
`build_fpga` checks only `os.path.exists`, never the size. -/
def emptyArtifactsW : BuildWorld :=
  { synth := fun _ => (true, [("out/top.json", 0)])
    pnr := fun _ => (true, [("out/top.asc", 0)])
    pack := fun _ => (true, [("out/top.bin", 0)])
    shutdownSynth := fun _ => false
    shutdownPnr := fun _ => false
    shutdownPack := fun _ => false }

/-- A build world in which every stage exits 0 but writes nothing at all. -/
def noOutputW : BuildWorld :=
  { synth := fun _ => (true, [])
    pnr := fun _ => (true, [])
    pack := fun _ => (true, [])
    shutdownSynth := fun _ => false
    shutdownPnr := fun _ => false
    shutdownPack := fun _ => false }

/-- A build world in which synthesis fails on every attempt while still
writing a partial netlist file. -/
def failSynthW : BuildWorld :=
  { synth := fun _ => (false, [("out/top.json", 5)])
    pnr := fun _ => (true, [("out/top.asc", 4)])
    pack := fun _ => (true, [("out/top.bin", 4)])
    shutdownSynth := fun _ => false
    shutdownPnr := fun _ => false
    shutdownPack := fun _ => false }

/-! ### Mass-storage mount resolution
(`check_existing_icelink_mount` lines 476-513,
`find_and_mount_icelink_device` lines 515-663, `find_icelink_mount`
lines 665-681) -/

/-- Observable external actions of the programming phase.  `icesprogWrite`
marks entry into `program_with_icesprog` (strategy A, the direct
`icesprog -w` write, lines 860-865); the others mark the steps of mount
resolution and the mass-storage copy (strategy B). -/
inductive PEvent
  | icesprogWrite
  | lsblkScan
  | globScan
  | deviceDiscovery
  | mountAttempt
  | copyFile
  | syncCmd
deriving DecidableEq, Repr

def isIcesprogWrite : PEvent → Bool
  | PEvent.icesprogWrite => true
  | _ => false

/-- One line of `lsblk -f` output: whether the `iCELink` label regex matches
it (line 485/531, case-insensitive search), and its whitespace-split
fields. -/
structure LsblkLine where
  matchesIcelink : Bool
  parts : List String
deriving DecidableEq, Repr

/-- Result of one `mount` shell command (lines 622-643): exit 0, nonzero
exit, or `subprocess.TimeoutExpired` (30 s timeout; the timeout exception is
caught at line 655 and converted to an immediate `FPGABuildError`). -/
inductive MountCmdRes
  | okRes
  | failRes
  | timeoutRes
deriving DecidableEq, Repr

/-- External state observed during one mount-resolution pass.  `lsblkOk`:
whether `lsblk -f` exits 0 (a failing `lsblk` raises
`CalledProcessError`, caught in `check_existing_icelink_mount` at line 508 —
which also skips the glob fallback — and in device discovery at line 562).
`globOf`: the `glob.glob` matches of each pattern.  `isMountPoint` is
`os.path.ismount` before any new mount; `ismountAfterMount` is its value at
the verification of line 649, after the mount command ran.  `mountOutputOf d`
is the mount point the `mount` listing of lines 567-578 reports for device
`d` (with at least 3 fields), if any.  `blkidFsFat d`: `blkid d` exits 0 and
reports a FAT variant (lines 598-616). -/
structure MWorld where
  lsblkOk : Bool
  lsblkLines : List LsblkLine
  globOf : String → List String
  isMountPoint : String → Bool
  devExists : String → Bool
  blkidHasIcelink : String → Bool
  mountOutputOf : String → Option String
  makedirsOk : Bool
  blkidFsFat : String → Bool
  mount1 : MountCmdRes
  mount2 : MountCmdRes
  ismountAfterMount : Bool

/-- The fixed glob patterns of lines 493-500. -/
def common_mount_patterns : List String :=
  ["/media/icelink", "/media/iCELink", "/mnt/icelink", "/mnt/iCELink",
   "/run/media/*/icelink", "/run/media/*/iCELink"]

/-- The fixed device-node candidates of line 541. -/
def device_patterns : List String :=
  ["/dev/sda", "/dev/sdb", "/dev/sdc", "/dev/sdd"]

/-- Scan of the `lsblk -f` lines (lines 484-490): the first line matching the
label that has at least 7 fields with a non-empty 7th field (`parts[6]`, the
mount point) yields that mount point; a matching line without those fields is
skipped and the loop continues. -/
def lsblkMountOf (lines : List LsblkLine) : Option String :=
  lines.findSome? fun l =>
    if l.matchesIcelink && decide (7 ≤ l.parts.length) && (l.parts.getD 6 "" != "") then
      some (l.parts.getD 6 "")
    else none

/-- Glob fallback of lines 491-506: patterns in order, first actual mount
point among the matches wins. -/
def globMountOf (w : MWorld) : Option String :=
  common_mount_patterns.findSome? fun pat => (w.globOf pat).find? w.isMountPoint

/-- `check_existing_icelink_mount` (lines 476-513).  If `lsblk` itself fails,
the `except` clauses of lines 508-513 return `None` — note they also skip the
glob fallback, since the glob loop sits inside the same `try:` block. -/
def check_existing_icelink_mount (w : MWorld) : Option String × List PEvent :=
  if w.lsblkOk then
    match lsblkMountOf w.lsblkLines with
    | some mp => (some mp, [PEvent.lsblkScan])
    | none =>
      match globMountOf w with
      | some m => (some m, [PEvent.lsblkScan, PEvent.globScan])
      | none => (none, [PEvent.lsblkScan, PEvent.globScan])
  else (none, [PEvent.lsblkScan])

/-- Device discovery via `lsblk` (lines 529-536): first label-matching line
with at least one field yields its first field as the device path. -/
def lsblkDeviceOf (lines : List LsblkLine) : Option String :=
  lines.findSome? fun l => if l.matchesIcelink then l.parts.head? else none

/-- Device discovery via the fixed candidates (lines 539-557): the first
existing node whose `blkid` output contains the label (a failing `blkid` is
caught at line 556 and treated as no match). -/
def probeDeviceOf (w : MWorld) : Option String :=
  device_patterns.find? fun p => w.devExists p && w.blkidHasIcelink p

/-- The mount-and-verify tail of `find_and_mount_icelink_device`
(lines 591-663) once a device node is known and the `mount` listing did not
already show it mounted: choose vfat options if `blkid` reported FAT, else
auto; run `mount`; on nonzero exit retry without an explicit filesystem type
only when a type had been given (lines 630-646; with type auto a failed mount
falls through to verification); on `TimeoutExpired` fail immediately; finally
verify `os.path.ismount` (lines 648-653). -/
def mountDevice (w : MWorld) (d : String) : Except PyExc String :=
  let verified : Except PyExc String :=
    if w.ismountAfterMount then Except.ok "/mnt/icelink"
    else Except.error (PyExc.fpgaBuildError
      "Mount verification failed: /mnt/icelink is not a mount point")
  match w.mount1 with
  | MountCmdRes.timeoutRes => Except.error (PyExc.fpgaBuildError "Mount operation timed out")
  | MountCmdRes.okRes => verified
  | MountCmdRes.failRes =>
    if w.blkidFsFat d then
      match w.mount2 with
      | MountCmdRes.timeoutRes =>
        Except.error (PyExc.fpgaBuildError "Mount operation timed out")
      | MountCmdRes.okRes => verified
      | MountCmdRes.failRes =>
        Except.error (PyExc.fpgaBuildError "Mount failed even with auto detection")
    else verified

/-- The `device_path` computation of lines 525-557: the `lsblk` scan first,
the fixed-candidate `blkid` probe only if it found nothing. -/
def deviceOf (w : MWorld) : Option String :=
  match lsblkDeviceOf w.lsblkLines with
  | some d => some d
  | none => probeDeviceOf w

/-- Lines 566-663, once a device node `d` is known: consult the `mount`
listing (lines 567-578; a hit returns its mount point), create the fixed
mount-point directory (lines 582-589; failure raises), then run
mount-and-verify. -/
def famountDev (w : MWorld) (d : String) (tr : List PEvent) :
    Except PyExc String × List PEvent :=
  match w.mountOutputOf d with
  | some mp => (Except.ok mp, tr)
  | none =>
    if w.makedirsOk then
      (mountDevice w d, tr ++ [PEvent.mountAttempt])
    else
      (Except.error (PyExc.fpgaBuildError "Mount point creation failed"), tr)

/-- Lines 525-663 after the existing-mount re-check found nothing: device
discovery (a failing `lsblk` jumps to the `except` of line 562; a found
device proceeds to `famountDev`; none found raises). -/
def famountInner (w : MWorld) (tr : List PEvent) : Except PyExc String × List PEvent :=
  if w.lsblkOk then
    match deviceOf w with
    | none =>
      (Except.error (PyExc.fpgaBuildError
        ("iCELink device not found. Check USB connection and ensure device is in "
          ++ "mass storage mode.")), tr)
    | some d => famountDev w d tr
  else
    (Except.error (PyExc.fpgaBuildError "Device detection failed"), tr)

/-- `find_and_mount_icelink_device` (lines 515-663): re-check for an existing
mount (methods 1 and 2), then discover a device node (method 3: `lsblk`
scan, then the `blkid` probe of fixed candidates), consult the `mount`
listing, create the mount-point directory, and mount-and-verify. -/
def find_and_mount_icelink_device (w : MWorld) : Except PyExc String × List PEvent :=
  match check_existing_icelink_mount w with
  | (some mp, tr) => (Except.ok mp, tr)
  | (none, tr0) => famountInner w (tr0 ++ [PEvent.deviceDiscovery])

/-- `find_icelink_mount` (lines 665-681): existing-mount check, then the
mount attempt (which itself re-runs the existing-mount check, so `lsblk` is
scanned twice on that path, as in the source). -/
def find_icelink_mount (w : MWorld) : Except PyExc String × List PEvent :=
  match check_existing_icelink_mount w with
  | (some mp, tr) => (Except.ok mp, tr)
  | (none, tr) =>
    let r := find_and_mount_icelink_device w
    (r.1, tr ++ r.2)

/-! ### Programmer (`program_fpga`, lines 849-930) -/

/-- Failure modes of one `subprocess.run` inside `run_cmd` (lines 280-344). -/
inductive CmdOutcome
  | success
  | exitNonzero (err : String)
  | timedOut
  | notFound
  | otherFail (msg : String)
deriving DecidableEq, Repr

/-- `run_cmd` (lines 280-344): checks the shutdown flag (line 304; the raised
`FPGABuildError` is itself re-wrapped by the generic `except Exception` of
line 342), runs the command, and converts EVERY failure mode into an
`FPGABuildError` — so `run_cmd` can only raise the domain error type. -/
def runCmd (shutdown : Bool) (outcome : CmdOutcome) (error_msg : String) :
    Except PyExc Unit :=
  if shutdown then
    Except.error (PyExc.fpgaBuildError "Unexpected error: Operation cancelled by user")
  else
    match outcome with
    | CmdOutcome.success => Except.ok ()
    | CmdOutcome.exitNonzero e =>
      Except.error (PyExc.fpgaBuildError (error_msg ++ ": " ++ e))
    | CmdOutcome.timedOut =>
      Except.error (PyExc.fpgaBuildError (error_msg ++ " - Timeout after 60s"))
    | CmdOutcome.notFound =>
      Except.error (PyExc.fpgaBuildError "Command not found: icesprog")
    | CmdOutcome.otherFail m =>
      Except.error (PyExc.fpgaBuildError ("Unexpected error: " ++ m))

/-- External world of one `program_fpga` call: per-attempt outcome of the
`icesprog -w` invocation, the shutdown flag as seen inside `run_cmd`
(`shutdownDuringA`) and at the start of each retry attempt of each strategy
(`shutdownA`, `shutdownB`), the mount-resolution world of each drag-and-drop
attempt, and the per-attempt write-permission, copy and settle-verification
outcomes of strategy B. -/
structure ProgWorld where
  icesprogOutcome : Nat → CmdOutcome
  shutdownDuringA : Nat → Bool
  shutdownA : Nat → Bool
  shutdownB : Nat → Bool
  mw : Nat → MWorld
  writable : Nat → String → Bool
  copyOk : Nat → Bool
  destExists : Nat → Bool

/-- `program_with_icesprog` (lines 860-865): one direct-write attempt;
returns `True` when `run_cmd` succeeds. -/
def aAttemptRes (w : ProgWorld) (n : Nat) : Except PyExc Bool :=
  match runCmd (w.shutdownDuringA n) (w.icesprogOutcome n) "icesprog programming failed." with
  | Except.ok _ => Except.ok true
  | Except.error e => Except.error e

/-- `program_with_dragdrop` (lines 867-909): resolve the mount point (any
failure is wrapped in an `FPGABuildError`, lines 873-875), check write
permission (`os.access`), copy the bitstream (`shutil.copy2`, any exception
wrapped at lines 887-889), best-effort `sync` (never fatal, lines 892-895),
sleep 5 s, then verify the destination file exists (lines 902-904; its
absence is a hard failure for this attempt). -/
def dragAttemptRes (w : ProgWorld) (n : Nat) : Except PyExc Bool × List PEvent :=
  match find_icelink_mount (w.mw n) with
  | (Except.error e, tr) =>
    (Except.error (PyExc.fpgaBuildError
      ("Failed to find or mount iCELink device: " ++ msgOf e)), tr)
  | (Except.ok mp, tr) =>
    if w.writable n mp then
      if w.copyOk n then
        if w.destExists n then (Except.ok true, tr ++ [PEvent.copyFile, PEvent.syncCmd])
        else
          (Except.error (PyExc.fpgaBuildError
            "Bitstream file not found on device after copy"),
            tr ++ [PEvent.copyFile, PEvent.syncCmd])
      else
        (Except.error (PyExc.fpgaBuildError "Failed to copy bitstream to mount point"),
          tr ++ [PEvent.copyFile])
    else
      (Except.error (PyExc.fpgaBuildError ("No write permission to mount point: " ++ mp)), tr)

/-- Strategy A as a retried, event-logging operation. -/
def icesprogOp (w : ProgWorld) : Nat → List PEvent → Except PyExc Bool × List PEvent :=
  appendOp (aAttemptRes w) (fun _ => [PEvent.icesprogWrite])

/-- Strategy B as a retried, event-logging operation. -/
def dragOp (w : ProgWorld) : Nat → List PEvent → Except PyExc Bool × List PEvent :=
  appendOp (fun n => (dragAttemptRes w n).1) (fun n => (dragAttemptRes w n).2)

/-- Strategy A under its own `retry_operation` (line 920). -/
def progA (w : ProgWorld) : Except PyExc Bool × List PEvent × List Nat :=
  retry_operation (icesprogOp w) w.shutdownA MAX_RETRIES RETRY_DELAY
    "icesprog programming" []

/-- Strategy B under its own `retry_operation` (lines 913 and 926). -/
def progB (w : ProgWorld) (tr : List PEvent) : Except PyExc Bool × List PEvent × List Nat :=
  retry_operation (dragOp w) w.shutdownB MAX_RETRIES RETRY_DELAY
    "drag-and-drop programming" tr

/-- `program_fpga` (lines 849-930).  With `force_dragdrop`, only strategy B
runs, under `except Exception` (line 915: any failure becomes `False`).
Otherwise strategy A runs first; only an `FPGABuildError` from it triggers
the strategy-B fallback (line 922) — any other exception type would
propagate to the caller — and the fallback runs under `except Exception`
(line 928). -/
def program_fpga (w : ProgWorld) (force_dragdrop : Bool) :
    Except PyExc Bool × List PEvent :=
  if force_dragdrop then
    match progB w [] with
    | (Except.ok _, tr, _) => (Except.ok true, tr)
    | (Except.error _, tr, _) => (Except.ok false, tr)
  else
    match progA w with
    | (Except.ok _, tr, _) => (Except.ok true, tr)
    | (Except.error (PyExc.fpgaBuildError _), tr, _) =>
      (match progB w tr with
       | (Except.ok _, tr2, _) => (Except.ok true, tr2)
       | (Except.error _, tr2, _) => (Except.ok false, tr2))
    | (Except.error e, tr, _) => (Except.error e, tr)

/-- A mount world in which nothing is found: `lsblk` exits 0 with no
matching line, every glob is empty, no device node qualifies. -/
def mwNotFound : MWorld :=
  { lsblkOk := true
    lsblkLines := []
    globOf := fun _ => []
    isMountPoint := fun _ => false
    devExists := fun _ => false
    blkidHasIcelink := fun _ => false
    mountOutputOf := fun _ => none
    makedirsOk := true
    blkidFsFat := fun _ => false
    mount1 := MountCmdRes.failRes
    mount2 := MountCmdRes.failRes
    ismountAfterMount := false }

/-- A mount world in which the `lsblk` scan reports the volume already
mounted at `/media/icelink` (a matching line with 7 fields). -/
def mwFound : MWorld :=
  { lsblkOk := true
    lsblkLines := [{ matchesIcelink := true
                     parts := ["sda1", "vfat", "FAT16", "iCELink", "x", "y",
                               "/media/icelink"] }]
    globOf := fun _ => []
    isMountPoint := fun _ => false
    devExists := fun _ => false
    blkidHasIcelink := fun _ => false
    mountOutputOf := fun _ => none
    makedirsOk := true
    blkidFsFat := fun _ => false
    mount1 := MountCmdRes.failRes
    mount2 := MountCmdRes.failRes
    ismountAfterMount := false }

/-- A programming world where `icesprog -w` always exits nonzero and every
drag-and-drop attempt succeeds via the already-mounted volume. -/
def pwFallbackOk : ProgWorld :=
  { icesprogOutcome := fun _ => CmdOutcome.exitNonzero "write failed"
    shutdownDuringA := fun _ => false
    shutdownA := fun _ => false
    shutdownB := fun _ => false
    mw := fun _ => mwFound
    writable := fun _ _ => true
    copyOk := fun _ => true
    destExists := fun _ => true }

/-! ### Driver (`main`, lines 932-1249)

The process environment `os.environ` is an association list.  `main` snapshots
it (line 935), augments it from the toolchain activation script when that
exists (lines 938-946), and explicitly restores the snapshot in exactly four
places: the end of the full build-and-program path (lines 1214-1215) and the
three `except` handlers (lines 1224-1225, 1233-1234, 1242-1243).  Every other
`return` inside the `try:` block returns with the augmented environment still
installed (there is no `finally:`).  Argument parsing, logging setup, the
resource check and `check_usb_device` (which cannot alter the environment or
the exit path) are outside the model; the re-check at line 1145 is dead code,
as every passthrough branch has already returned. -/

abbrev Env := List (String × String)

def envRemove (e : Env) (k : String) : Env :=
  e.filter (fun kv => kv.1 != k)

def envSet (e : Env) (k v : String) : Env :=
  envRemove e k ++ [(k, v)]

def envLookup (e : Env) (k : String) : Option String :=
  (e.find? (fun kv => kv.1 == k)).map (fun kv => kv.2)

def envUpdate (e : Env) (ps : List (String × String)) : Env :=
  ps.foldl (fun acc kv => envSet acc kv.1 kv.2) e

/-- The parsed command-line arguments (lines 994-1028); `readTarget` models
`args.read`. -/
structure Args where
  verilog_file : Option String
  pcf_file : Option String
  verbose : Bool
  no_clean : Bool
  build_only : Bool
  force_dragdrop : Bool
  clk_sel : Option Nat
  jtag_sel : Option Nat
  erase : Bool
  probe : Bool
  readTarget : Option String
  offset : Option Int
  lenOpt : Option Int
  gpio : Option String
  mode : Option Nat
  gpio_read : Bool
  gpio_write : Bool
  gpio_value : Option Int

/-- Python truthiness of an optional int (`if args.clk_sel:`). -/
def optNatTruthy : Option Nat → Bool
  | some n => n != 0
  | none => false

/-- Python truthiness of an optional string (`if args.gpio:`). -/
def optStrTruthy : Option String → Bool
  | some s => !s.data.isEmpty
  | none => false

/-- The regex `^P[A-F][0-9]+$` of line 1090. -/
def gpioFormatOk (s : String) : Bool :=
  match s.data with
  | 'P' :: c :: ds => decide ('A' ≤ c) && decide (c ≤ 'F') && !ds.isEmpty &&
      ds.all Char.isDigit
  | _ => false

def digitsToNat (ds : List Char) : Nat :=
  ds.foldl (fun acc c => acc * 10 + (c.toNat - '0'.toNat)) 0

/-- ASCII lowering of one character (`str.lower()` on the ASCII paths the
tool handles). -/
def charLower (c : Char) : Char :=
  if decide ('A' ≤ c) && decide (c ≤ 'Z') then Char.ofNat (c.toNat + 32) else c

/-- `s.endswith(p)` over character lists. -/
def listEndsWith (s p : List Char) : Bool :=
  s.reverse.take p.length == p.reverse

/-- `str.split(sep)` for a one-character separator. -/
def splitOnCharAux (c : Char) : List Char → List Char → List String
  | [], acc => [String.mk acc.reverse]
  | ch :: rest, acc =>
    if ch = c then String.mk acc.reverse :: splitOnCharAux c rest []
    else splitOnCharAux c rest (ch :: acc)

def splitOnChar (c : Char) (s : String) : List String :=
  splitOnCharAux c s.data []

/-- `str.strip()`: drop whitespace from both ends. -/
def strTrim (s : String) : String :=
  String.mk (((s.data.dropWhile Char.isWhitespace).reverse.dropWhile
    Char.isWhitespace).reverse)

/-- `Path(name).stem`: the final component minus its last suffix; a name
whose only dot is leading or trailing has no suffix. -/
def stemOfName (n : String) : String :=
  match n.data.reverse with
  | [] => n
  | c0 :: _ =>
    if c0 = '.' then n
    else
      match n.data.reverse.dropWhile (fun c => c != '.') with
      | [] => n
      | _ :: rest => if rest.isEmpty then n else String.mk rest.reverse

def pathStem (p : String) : String :=
  stemOfName ((splitOnChar '/' p).getLastD p)

/-- `check_file` (lines 251-263): existence. -/
def check_file (fs : FS) (p : String) : Bool :=
  fsExists fs p

/-- `validate_extension` (lines 265-278): case-insensitive suffix check. -/
def validate_extension (p ext : String) : Bool :=
  listEndsWith (p.data.map charLower) (ext.data.map charLower)

/-- `validate_input_files` (lines 705-726) as a boolean: every Verilog file
exists with extension `.v`, and the PCF file exists with extension `.pcf`
(in the source, a failing check raises `FPGABuildError`). -/
def validate_input_files (fs : FS) (vfiles : List String) (pcf : String) : Bool :=
  vfiles.all (fun v => check_file fs v && validate_extension v ".v") &&
    check_file fs pcf && validate_extension pcf ".pcf"

/-- `REQUIRED_TOOLS` (line 27). -/
def REQUIRED_TOOLS : List String :=
  ["yosys", "nextpnr-ice40", "icepack", "icesprog"]

/-- Which `return` of `main` the run exited through.  `errCaught` covers the
three `except` handlers of lines 1220-1246 (domain error, interrupt,
unexpected fault), which all restore the environment. -/
inductive ExitKind
  | passthroughDone
  | deviceMissing
  | gpioUsageError
  | jtagRejected
  | missingVerilog
  | missingPcf
  | buildOnlyDone
  | programFailed
  | fullSuccess
  | errCaught
deriving DecidableEq, Repr

/-- External world of one `main` run: the pre-run environment snapshot, the
activation script's existence and the variables sourcing it sets, the parsed
arguments, the device probe result (`check_icelink_status`), the passthrough
`run_cmd` outcomes, tool availability, the input filesystem and the worlds of
the build and programming phases. -/
structure MainWorld where
  env0 : Env
  ossEnvExists : Bool
  augPairs : List (String × String)
  args : Args
  icelinkOk : Bool
  cmdOk : List String → Bool
  toolOk : String → Bool
  fs0 : FS
  usbSerial : Option String
  buildW : BuildWorld
  progW : ProgWorld

/-- The environment after the startup augmentation of lines 938-946:
`os.environ` updated with every variable of the sourced activation script
when the script exists, unchanged otherwise (a failing sourcing only logs a
warning, which is the `augPairs = []` case). -/
def mainAugEnv (w : MainWorld) : Env :=
  if w.ossEnvExists then envUpdate w.env0 w.augPairs else w.env0

/-- The GPIO branch of lines 1083-1130: device check, pin-format regex, pin
range, then mode-set / read / write dispatch.  A failing `run_cmd` raises,
reaching the handler that restores the environment; every early validation
`return 1` keeps the augmented environment. -/
def gpioBranch (w : MainWorld) (g : String) : Int × Env × ExitKind :=
  if w.icelinkOk then
    if gpioFormatOk g then
      if digitsToNat (g.data.drop 2) ≤ 15 then
        match w.args.mode with
        | some m =>
          if w.cmdOk ["icesprog", "-g", g, "-m", if m == 0 then "in" else "out"] then
            (0, mainAugEnv w, ExitKind.passthroughDone)
          else (1, w.env0, ExitKind.errCaught)
        | none =>
          if w.args.gpio_read then
            if w.cmdOk ["icesprog", "-r", "-g", g] then
              (0, mainAugEnv w, ExitKind.passthroughDone)
            else (1, w.env0, ExitKind.errCaught)
          else if w.args.gpio_write then
            match w.args.gpio_value with
            | none => (1, mainAugEnv w, ExitKind.gpioUsageError)
            | some v =>
              if w.cmdOk ["icesprog", "-w", "-g", g, toString v] then
                (0, mainAugEnv w, ExitKind.passthroughDone)
              else (1, w.env0, ExitKind.errCaught)
          else (1, mainAugEnv w, ExitKind.gpioUsageError)
      else (1, mainAugEnv w, ExitKind.gpioUsageError)
    else (1, mainAugEnv w, ExitKind.gpioUsageError)
  else (1, mainAugEnv w, ExitKind.deviceMissing)

/-- `verilog_files = [v.strip() for v in args.verilog_file.split(",")]`
(line 1159). -/
def mainVerilogFiles (w : MainWorld) : List String :=
  (splitOnChar ',' (w.args.verilog_file.getD "")).map strTrim

/-- `basename = Path(verilog_files[0]).stem` (lines 1160, 1188). -/
def mainBasename (w : MainWorld) : String :=
  pathStem ((mainVerilogFiles w).getD 0 "")

/-- `pcf_file = args.pcf_file or f"...stem.pcf"` (line 1160): Python `or`
falls through on `None` and on the empty string. -/
def derivedPcf (w : MainWorld) : String :=
  match w.args.pcf_file with
  | some p => if p.data.isEmpty then mainBasename w ++ ".pcf" else p
  | none => mainBasename w ++ ".pcf"

/-- The build-and-program tail of `main` (lines 1158-1218): PCF check, input
validation, tool check, build, then build-only return or programming, with
the environment restored only on the final full-success path; validation and
tool failures raise `FPGABuildError` and are restored by the handler. -/
def buildProgramBranch (w : MainWorld) : Int × Env × ExitKind :=
  if (derivedPcf w).data.isEmpty then (1, mainAugEnv w, ExitKind.missingPcf)
  else if !validate_input_files w.fs0 (mainVerilogFiles w) (derivedPcf w) then
    (1, w.env0, ExitKind.errCaught)
  else if !(REQUIRED_TOOLS.filter (fun t => !w.toolOk t)).isEmpty then
    (1, w.env0, ExitKind.errCaught)
  else
    match build_fpga w.buildW (mainBasename w) w.fs0 with
    | (Except.error _, _) => (1, w.env0, ExitKind.errCaught)
    | (Except.ok _, _) =>
      if w.args.build_only then (0, mainAugEnv w, ExitKind.buildOnlyDone)
      else
        match program_fpga w.progW w.args.force_dragdrop with
        | (Except.ok true, _) => (0, w.env0, ExitKind.fullSuccess)
        | (Except.ok false, _) => (1, mainAugEnv w, ExitKind.programFailed)
        | (Except.error _, _) => (1, w.env0, ExitKind.errCaught)

/-- `main` (lines 932-1249) from the end of argument parsing: the passthrough
branches in source order (erase, probe, read, gpio, jtag, clk), then the
build/program path.  The components of the result are the exit code, the
process environment at return, and the exit path taken. -/
def main_run (w : MainWorld) : Int × Env × ExitKind :=
  if w.args.erase then
    if w.icelinkOk then
      if w.cmdOk ["icesprog", "-e"] then (0, mainAugEnv w, ExitKind.passthroughDone)
      else (1, w.env0, ExitKind.errCaught)
    else (1, mainAugEnv w, ExitKind.deviceMissing)
  else if w.args.probe then
    if w.icelinkOk then
      if w.cmdOk ["icesprog", "-p"] then (0, mainAugEnv w, ExitKind.passthroughDone)
      else (1, w.env0, ExitKind.errCaught)
    else (1, mainAugEnv w, ExitKind.deviceMissing)
  else if optStrTruthy w.args.readTarget then
    if w.icelinkOk then
      if w.cmdOk (["icesprog", "-r", w.args.readTarget.getD ""] ++
          (match w.args.offset with | some o => ["-o", toString o] | none => []) ++
          (match w.args.lenOpt with | some l => ["-l", toString l] | none => [])) then
        (0, mainAugEnv w, ExitKind.passthroughDone)
      else (1, w.env0, ExitKind.errCaught)
    else (1, mainAugEnv w, ExitKind.deviceMissing)
  else if optStrTruthy w.args.gpio then
    gpioBranch w (w.args.gpio.getD "")
  else if optNatTruthy w.args.jtag_sel then
    (1, mainAugEnv w, ExitKind.jtagRejected)
  else if optNatTruthy w.args.clk_sel then
    if w.icelinkOk then
      if w.cmdOk ["icesprog", "-c", toString (w.args.clk_sel.getD 0)] then
        (0, mainAugEnv w, ExitKind.passthroughDone)
      else (1, w.env0, ExitKind.errCaught)
    else (1, mainAugEnv w, ExitKind.deviceMissing)
  else if !optStrTruthy w.args.verilog_file then
    (1, mainAugEnv w, ExitKind.missingVerilog)
  else
    buildProgramBranch w

/-- Arguments with every option unset. -/
def argsDefault : Args :=
  { verilog_file := none, pcf_file := none, verbose := false, no_clean := false
    build_only := false, force_dragdrop := false, clk_sel := none, jtag_sel := none
    erase := false, probe := false, readTarget := none, offset := none, lenOpt := none
    gpio := none, mode := none, gpio_read := false, gpio_write := false
    gpio_value := none }

/-- A build world in which every stage succeeds on its first attempt and
writes a non-empty output file. -/
def okBuildW : BuildWorld :=
  { synth := fun _ => (true, [("out/top.json", 4)])
    pnr := fun _ => (true, [("out/top.asc", 4)])
    pack := fun _ => (true, [("out/top.bin", 4)])
    shutdownSynth := fun _ => false
    shutdownPnr := fun _ => false
    shutdownPack := fun _ => false }

/-- A build-only run: the activation script exists and introduces
`OSS_CAD_ROOT`, the inputs validate, the tools resolve, the build succeeds. -/
def cw2 : MainWorld :=
  { env0 := [("PATH", "/usr/bin")]
    ossEnvExists := true
    augPairs := [("OSS_CAD_ROOT", "/opt/oss")]
    args := { argsDefault with verilog_file := some "top.v", build_only := true }
    icelinkOk := false
    cmdOk := fun _ => false
    toolOk := fun _ => true
    fs0 := [("top.v", 10), ("top.pcf", 5)]
    usbSerial := none
    buildW := okBuildW
    progW := pwFallbackOk }

/-- An erase run whose `icesprog -e` invocation fails, reaching the
`FPGABuildError` handler. -/
def cw2b : MainWorld :=
  { cw2 with args := { argsDefault with erase := true }, icelinkOk := true }

end FlashFpga

namespace FlashFpga

/-! ## Theorems about the retry engine (claims C1, C5, C6) -/

/-- Helper: under a never-set shutdown flag and an attempt-indexed outcome
function, the retry loop succeeds iff some attempt inside the remaining
budget succeeds. -/
theorem retry_ok_iff {σ α : Type} (resOf : Nat → Except PyExc α) (upd : Nat → σ → σ)
    (sh : Nat → Bool) (mR d : Nat) (nm : String) (hsh : ∀ n, sh n = false) :
    ∀ (rem a : Nat) (s : σ), rem = mR - a →
      (isOkE (retryAux (obliviousOp resOf upd) sh mR d nm rem a s).1 = true ↔
        ∃ n, a ≤ n ∧ n < mR ∧ isOkE (resOf n) = true) := by
  intro rem
  induction rem with
  | zero =>
    intro a s hrem
    constructor
    · intro h; simp [retryAux, isOkE] at h
    · rintro ⟨n, han, hnm, _⟩; omega
  | succ r ih =>
    intro a s hrem
    have ha : a < mR := by omega
    have hsa := hsh a
    rcases hr : resOf a with e | v
    · by_cases hlast : a = mR - 1
      · constructor
        · intro h
          subst hlast
          simp [retryAux, hsa, obliviousOp, hr, isOkE] at h
        · rintro ⟨n, han, hnm, hok⟩
          have : n = a := by omega
          subst this
          rw [hr] at hok
          simp [isOkE] at hok
      · have hrec := ih (a + 1) (upd a s) (by omega)
        constructor
        · intro h
          simp only [retryAux, hsa, Bool.false_eq_true, if_false, obliviousOp, hr,
            if_neg hlast] at h
          rcases hrec.mp h with ⟨n, han, hnm, hok⟩
          exact ⟨n, by omega, hnm, hok⟩
        · rintro ⟨n, han, hnm, hok⟩
          have hna : n ≠ a := by
            intro hEq; subst hEq; rw [hr] at hok; simp [isOkE] at hok
          simp only [retryAux, hsa, Bool.false_eq_true, if_false, obliviousOp, hr,
            if_neg hlast]
          exact hrec.mpr ⟨n, by omega, hnm, hok⟩
    · constructor
      · intro _; exact ⟨a, le_refl a, ha, by rw [hr]; rfl⟩
      · intro _; simp [retryAux, hsa, obliviousOp, hr, isOkE]

/-- Helper: if every attempt inside the budget fails, the loop propagates the
error of the final attempt (the most recent failure). -/
theorem retry_all_fail_last {σ α : Type} (resOf : Nat → Except PyExc α) (errOf : Nat → PyExc)
    (upd : Nat → σ → σ) (sh : Nat → Bool) (mR d : Nat) (nm : String)
    (hsh : ∀ n, sh n = false)
    (hres : ∀ n, n < mR → resOf n = Except.error (errOf n)) :
    ∀ (rem a : Nat) (s : σ), rem = mR - a → a < mR →
      (retryAux (obliviousOp resOf upd) sh mR d nm rem a s).1 =
        Except.error (errOf (mR - 1)) := by
  intro rem
  induction rem with
  | zero => intro a s hrem ha; omega
  | succ r ih =>
    intro a s hrem ha
    have hsa := hsh a
    have hr := hres a ha
    by_cases hlast : a = mR - 1
    · subst hlast
      simp [retryAux, hsa, obliviousOp, hr]
    · simp only [retryAux, hsa, if_false, Bool.false_eq_true, obliviousOp, hr,
        if_neg hlast]
      exact ih (a + 1) (upd a s) (by omega) (by omega)

/-- Helper: if every failure the wrapped operation can produce is an
`FPGABuildError`, then every failure escaping the retry loop is an
`FPGABuildError` (the cancellation error of line 126 and the aggregate error
of line 140 are both `FPGABuildError`s). -/
theorem retry_err_fpga {σ α : Type} (op : Nat → σ → Except PyExc α × σ) (sh : Nat → Bool)
    (mR d : Nat) (nm : String)
    (hop : ∀ n s e, (op n s).1 = Except.error e → isFpgaErr e = true) :
    ∀ (rem a : Nat) (s : σ) (e : PyExc),
      (retryAux op sh mR d nm rem a s).1 = Except.error e → isFpgaErr e = true := by
  intro rem
  induction rem with
  | zero =>
    intro a s e h
    simp only [retryAux, Except.error.injEq] at h
    subst h; rfl
  | succ r ih =>
    intro a s e h
    cases hsa : sh a with
    | false =>
      rcases hop' : op a s with ⟨res, s'⟩
      rcases res with e' | v
      · have he' : isFpgaErr e' = true := hop a s e' (by rw [hop'])
        by_cases hlast : a = mR - 1
        · subst hlast
          simp [retryAux, hsa, hop'] at h
          subst h; exact he'
        · simp only [retryAux, hsa, Bool.false_eq_true, if_false, hop', if_neg hlast] at h
          exact ih (a + 1) s' e h
      · simp [retryAux, hsa, hop'] at h
    | true =>
      by_cases hlast : a = mR - 1
      · subst hlast
        simp [retryAux, hsa] at h
        subst h; rfl
      · simp only [retryAux, hsa, eq_self_iff_true, if_true, if_neg hlast] at h
        exact ih (a + 1) s e h

/-- Helper: the retry loop only ever appends to the event log it is given. -/
theorem retry_trace_extends {ε α : Type} (resOf : Nat → Except PyExc α)
    (evOf : Nat → List ε) (sh : Nat → Bool) (mR d : Nat) (nm : String) :
    ∀ (rem a : Nat) (s : List ε),
      ∃ t, (retryAux (appendOp resOf evOf) sh mR d nm rem a s).2.1 = s ++ t := by
  intro rem
  induction rem with
  | zero => intro a s; exact ⟨[], by simp [retryAux]⟩
  | succ r ih =>
    intro a s
    cases hsa : sh a with
    | false =>
      rcases hr : resOf a with e | v
      · by_cases hlast : a = mR - 1
        · subst hlast
          exact ⟨evOf (mR - 1), by simp [retryAux, hsa, appendOp, obliviousOp, hr]⟩
        · rcases ih (a + 1) (s ++ evOf a) with ⟨t, ht⟩
          refine ⟨evOf a ++ t, ?_⟩
          simp only [retryAux, hsa, Bool.false_eq_true, if_false, appendOp, obliviousOp, hr,
            if_neg hlast]
          simp only [appendOp, obliviousOp] at ht
          rw [ht, List.append_assoc]
      · exact ⟨evOf a, by simp [retryAux, hsa, appendOp, obliviousOp, hr]⟩
    | true =>
      by_cases hlast : a = mR - 1
      · subst hlast
        exact ⟨[], by simp [retryAux, hsa]⟩
      · rcases ih (a + 1) s with ⟨t, ht⟩
        refine ⟨t, ?_⟩
        simp only [retryAux, hsa, eq_self_iff_true, if_true, if_neg hlast]
        exact ht

/-- Helper: every event in the retry loop's final log either was already in
the initial log or belongs to some attempt's event list. -/
theorem retry_trace_mem {ε α : Type} (resOf : Nat → Except PyExc α)
    (evOf : Nat → List ε) (sh : Nat → Bool) (mR d : Nat) (nm : String) :
    ∀ (rem a : Nat) (s : List ε) (x : ε),
      x ∈ (retryAux (appendOp resOf evOf) sh mR d nm rem a s).2.1 →
      x ∈ s ∨ ∃ n, x ∈ evOf n := by
  intro rem
  induction rem with
  | zero => intro a s x hx; simp only [retryAux] at hx; exact Or.inl hx
  | succ r ih =>
    intro a s x hx
    cases hsa : sh a with
    | false =>
      rcases hr : resOf a with e | v
      · by_cases hlast : a = mR - 1
        · subst hlast
          simp only [retryAux, hsa, Bool.false_eq_true, if_false, appendOp, obliviousOp, hr,
            eq_self_iff_true, if_true] at hx
          rcases List.mem_append.mp hx with h | h
          · exact Or.inl h
          · exact Or.inr ⟨mR - 1, h⟩
        · simp only [retryAux, hsa, Bool.false_eq_true, if_false, appendOp, obliviousOp, hr,
            if_neg hlast] at hx
          rcases ih (a + 1) (s ++ evOf a) x hx with h | h
          · rcases List.mem_append.mp h with h' | h'
            · exact Or.inl h'
            · exact Or.inr ⟨a, h'⟩
          · exact Or.inr h
      · simp only [retryAux, hsa, Bool.false_eq_true, if_false, appendOp, obliviousOp, hr] at hx
        rcases List.mem_append.mp hx with h | h
        · exact Or.inl h
        · exact Or.inr ⟨a, h⟩
    | true =>
      by_cases hlast : a = mR - 1
      · subst hlast
        simp only [retryAux, hsa, eq_self_iff_true, if_true] at hx
        exact Or.inl hx
      · simp only [retryAux, hsa, eq_self_iff_true, if_true, if_neg hlast] at hx
        exact ih (a + 1) s x hx

/-- Helper: with fuel left and no shutdown at the first attempt, the first
attempt's events appear in the final log. -/
theorem retry_first_events {ε α : Type} (resOf : Nat → Except PyExc α)
    (evOf : Nat → List ε) (sh : Nat → Bool) (mR d : Nat) (nm : String)
    (r a : Nat) (s : List ε) (hsa : sh a = false) (x : ε) (hx : x ∈ evOf a) :
    x ∈ (retryAux (appendOp resOf evOf) sh mR d nm (r + 1) a s).2.1 := by
  rcases hr : resOf a with e | v
  · by_cases hlast : a = mR - 1
    · subst hlast
      simp [retryAux, hsa, appendOp, obliviousOp, hr, hx]
    · simp only [retryAux, hsa, Bool.false_eq_true, if_false, appendOp, obliviousOp, hr,
        if_neg hlast]
      rcases retry_trace_extends resOf evOf sh mR d nm r (a + 1) (s ++ evOf a) with ⟨t, ht⟩
      simp only [appendOp, obliviousOp] at ht
      rw [ht]
      simp [hx]
  · simp [retryAux, hsa, appendOp, obliviousOp, hr, hx]

/-- C1: with the shutdown flag already set before the first attempt,
`retry_operation(max_retries=3, delay=2)` does NOT fail immediately: the
cancellation error raised on line 126 sits inside the `try:` block, is caught
by `except Exception` (line 132) like an ordinary failure, and is retried.
The call sleeps the full backoff schedule (2 s, then 4 s), consumes all three
attempts, and never invokes the wrapped operation (here an operation that
would succeed immediately, yet the result is the cancellation error).  This
contradicts the claim that cancellation aborts at once, with no backoff sleep
and no use of the attempt budget. -/
theorem c1_cancel_retried :
    retry_operation (pureOp (fun _ => Except.ok (0 : Nat))) (fun _ => true) 3 2
        "Yosys synthesis" () =
      (Except.error (PyExc.fpgaBuildError "Operation cancelled by user"), (), [2, 4]) := by
  rfl

/-- C5 counterexample: when every attempt fails with a non-domain exception,
exhausting `max_retries = 3` attempts re-raises the bare most-recent failure
(`boom2`): the result is not an `FPGABuildError` and does not name the
operation (`"Place and route"`).  The aggregate error of line 140 is
unreachable for `max_retries >= 1`. -/
theorem c5_counterexample :
    (retry_operation (pureOp c5resOf) (fun _ => false) 3 2 "Place and route" ()).1 =
      Except.error (PyExc.otherExc "boom2") := by
  rfl

/-- C5 amended: after exhausting all attempts (`max_retries >= 1`, shutdown
never requested, every attempt failing), `retry_operation` re-raises the most
recent underlying failure itself, unchanged — it is not wrapped in an
aggregate error naming the operation; the aggregate `"... failed after N
attempts"` error of line 140 is raised only when `max_retries = 0`. -/
theorem c5_amended {α : Type} (resOf : Nat → Except PyExc α) (errOf : Nat → PyExc)
    (mR d : Nat) (nm : String) (hmR : 1 ≤ mR)
    (hres : ∀ n, n < mR → resOf n = Except.error (errOf n)) :
    (retry_operation (pureOp resOf) (fun _ => false) mR d nm ()).1 =
      Except.error (errOf (mR - 1)) :=
  retry_all_fail_last resOf errOf (fun _ s => s) (fun _ => false) mR d nm
    (fun _ => rfl) hres mR 0 () (by omega) (by omega)

/-- C5 amended, witness: three failing attempts with messages "0", "1", "2";
the propagated error is the most recent one, "2". -/
theorem c5_amended_witness :
    (retry_operation
        (pureOp (fun n => (Except.error (PyExc.otherExc (toString n)) : Except PyExc Nat)))
        (fun _ => false) 3 2 "Bitstream generation" ()).1 =
      Except.error (PyExc.otherExc "2") :=
  c5_amended (fun n => (Except.error (PyExc.otherExc (toString n)) : Except PyExc Nat))
    (fun n => PyExc.otherExc (toString n)) 3 2 "Bitstream generation" (by omega)
    (fun _ _ => rfl)

/-- C6: under `max_retries = 3` with no cancellation, if the wrapped stage
fails on attempts 1 and 2 and succeeds on attempt 3, `retry_operation`
returns the success and exactly two backoff sleeps occur, of `delay * 2^0`
and `delay * 2^1` seconds — the second double the first. -/
theorem c6_two_backoffs {α : Type} (resOf : Nat → Except PyExc α) (d : Nat) (nm : String)
    (v : α) (e0 e1 : PyExc)
    (h0 : resOf 0 = Except.error e0) (h1 : resOf 1 = Except.error e1)
    (h2 : resOf 2 = Except.ok v) :
    retry_operation (pureOp resOf) (fun _ => false) 3 d nm () =
      (Except.ok v, (), [d * 2 ^ 0, d * 2 ^ 1]) ∧
    d * 2 ^ 1 = 2 * (d * 2 ^ 0) := by
  constructor
  · simp [retry_operation, retryAux, pureOp, obliviousOp, h0, h1, h2]
  · ring

/-- C6 witness: with `delay = 2`, a stage failing twice then succeeding
yields success and the sleeps `[2, 4]`. -/
theorem c6_two_backoffs_witness :
    retry_operation (pureOp c6resOf) (fun _ => false) 3 2 "Place and route" () =
      (Except.ok true, (), [2 * 2 ^ 0, 2 * 2 ^ 1]) ∧
    2 * 2 ^ 1 = 2 * (2 * 2 ^ 0) :=
  c6_two_backoffs c6resOf 2 "Place and route" true
    (PyExc.fpgaBuildError "nextpnr-ice40 failed.")
    (PyExc.fpgaBuildError "nextpnr-ice40 failed.") rfl rfl rfl

/-! ## Theorems about the build pipeline (claims C3, C4) -/

/-- Helper: a path just removed does not exist. -/
theorem fsExists_fsRemove_self (fs : FS) (p : String) :
    fsExists (fsRemove fs p) p = false := by
  induction fs with
  | nil => rfl
  | cons kv t ih =>
    cases h : kv.1 == p with
    | true =>
      have hr : fsRemove (kv :: t) p = fsRemove t p := by
        simp [fsRemove, List.filter, bne, h]
      rw [hr]; exact ih
    | false =>
      have hr : fsRemove (kv :: t) p = kv :: fsRemove t p := by
        simp [fsRemove, List.filter, bne, h]
      rw [hr]
      simp only [fsExists, List.any_cons, h, Bool.false_or]
      exact ih

/-- Helper: removal never creates a file. -/
theorem fsExists_fsRemove_mono (fs : FS) (p q : String)
    (h : fsExists (fsRemove fs q) p = true) : fsExists fs p = true := by
  rcases List.any_eq_true.mp h with ⟨kv, hmem, hkv⟩
  exact List.any_eq_true.mpr ⟨kv, List.mem_of_mem_filter hmem, hkv⟩

/-- Helper: a path absent from a filesystem is still absent after removing
another path. -/
theorem fsExists_fsRemove_of_false (fs : FS) (q p : String)
    (h : fsExists fs p = false) : fsExists (fsRemove fs q) p = false := by
  cases hx : fsExists (fsRemove fs q) p with
  | false => rfl
  | true =>
    have := fsExists_fsRemove_mono fs p q hx
    rw [h] at this
    exact this.symm

/-- Helper: a successful `build_attempt` returns exactly the three derived
output paths and a filesystem in which all three exist. -/
theorem build_attempt_ok (w : BuildWorld) (basename : String) (fs : FS) (o : OutPaths)
    (fs' : FS) (h : build_attempt w basename fs = (Except.ok o, fs')) :
    o = output_files basename ∧ fsExists fs' o.json = true ∧
    fsExists fs' o.asc = true ∧ fsExists fs' o.bin = true := by
  simp only [build_attempt] at h
  split at h
  · simp at h
  · split at h
    · simp at h
    · split at h
      · simp at h
      · split at h
        · split at h
          · split at h
            · simp only [Prod.mk.injEq, Except.ok.injEq] at h
              obtain ⟨ho, hfs⟩ := h
              subst ho
              subst hfs
              exact ⟨rfl, by assumption, by assumption, by assumption⟩
            · simp at h
          · simp at h
        · simp at h

/-- C3 counterexample: in a world where every stage exits 0 on its first
attempt but writes a size-0 file, `build_fpga` succeeds and returns three
paths that exist but are all EMPTY — refuting the claim that the returned
artifacts are non-empty (`build_fpga` checks only `os.path.exists`,
lines 832-834; it never inspects file sizes). -/
theorem c3_counterexample :
    (build_fpga emptyArtifactsW "top" []).1 = Except.ok (output_files "top") ∧
    fsSize (build_fpga emptyArtifactsW "top" []).2 "out/top.json" = some 0 ∧
    fsSize (build_fpga emptyArtifactsW "top" []).2 "out/top.asc" = some 0 ∧
    fsSize (build_fpga emptyArtifactsW "top" []).2 "out/top.bin" = some 0 :=
  ⟨rfl, rfl, rfl, rfl⟩

/-- C3 amended: when `build_fpga` returns successfully, the three returned
artifact paths are the derived `out/<basename>.{json,asc,bin}` paths and all
three EXIST on disk (emptiness is not checked); and a stage that exits zero
but produces no output file makes the build fail (concretely, a world whose
stages all exit 0 writing nothing yields the "Expected output file not
found" error). -/
theorem c3_amended :
    (∀ (w : BuildWorld) (basename : String) (fs : FS) (o : OutPaths) (fs' : FS),
        build_fpga w basename fs = (Except.ok o, fs') →
        o = output_files basename ∧ fsExists fs' o.json = true ∧
        fsExists fs' o.asc = true ∧ fsExists fs' o.bin = true) ∧
    (build_fpga noOutputW "top" []).1 =
      Except.error (PyExc.fpgaBuildError "Expected output file not found: out/top.json") := by
  constructor
  · intro w basename fs o fs' h
    unfold build_fpga at h
    rcases hb : build_attempt w basename fs with ⟨res, fs0⟩
    rw [hb] at h
    rcases res with e | v
    · simp at h
    · simp only [Prod.mk.injEq, Except.ok.injEq] at h
      obtain ⟨hv, hfs⟩ := h
      subst hv
      subst hfs
      exact build_attempt_ok w basename fs _ _ hb
  · rfl

/-- C3 amended, witness: a concrete successful build (each stage writing its
file) returns paths that all exist. -/
theorem c3_amended_witness :
    fsExists (build_fpga emptyArtifactsW "top" []).2 (output_files "top").json = true :=
  (c3_amended.1 emptyArtifactsW "top" [] (output_files "top")
    (build_fpga emptyArtifactsW "top" []).2 (by rfl)).2.1

/-- C4: whenever `build_fpga` propagates an error (a stage exhausted its
retries, or the output-verification failed), the cleanup handler of
lines 839-847 has removed all three output artifact paths of this build:
none of them exists in the resulting filesystem. -/
theorem c4_cleanup (w : BuildWorld) (basename : String) (fs : FS) (e : PyExc) (fs' : FS)
    (h : build_fpga w basename fs = (Except.error e, fs')) :
    fsExists fs' (output_files basename).json = false ∧
    fsExists fs' (output_files basename).asc = false ∧
    fsExists fs' (output_files basename).bin = false := by
  unfold build_fpga at h
  rcases hb : build_attempt w basename fs with ⟨res, fs0⟩
  rw [hb] at h
  rcases res with e' | v
  · simp only [Prod.mk.injEq, Except.error.injEq] at h
    obtain ⟨he, hfs⟩ := h
    subst hfs
    refine ⟨?_, ?_, ?_⟩
    · exact fsExists_fsRemove_of_false _ _ _
        (fsExists_fsRemove_of_false _ _ _ (fsExists_fsRemove_self fs0 _))
    · exact fsExists_fsRemove_of_false _ _ _
        (fsExists_fsRemove_self (fsRemove fs0 (output_files basename).json) _)
    · exact fsExists_fsRemove_self _ _
  · simp at h

/-- C4 witness: a build whose synthesis stage always fails (after writing a
partial netlist) ends with an empty filesystem — in particular the netlist
path no longer exists. -/
theorem c4_cleanup_witness :
    fsExists ([] : FS) (output_files "top").json = false :=
  (c4_cleanup failSynthW "top" [] (PyExc.fpgaBuildError "Yosys synthesis failed.") []
    (by rfl)).1

/-! ## Theorems about mount resolution and the programmer (claims C7-C10) -/

/-- Helper: the existing-mount check emits either only the `lsblk` scan, or
the `lsblk` scan followed by the glob scan — the latter exactly when `lsblk`
succeeded and its label scan yielded no mount point. -/
theorem check_existing_trace (w : MWorld) :
    (check_existing_icelink_mount w).2 = [PEvent.lsblkScan] ∨
    ((check_existing_icelink_mount w).2 = [PEvent.lsblkScan, PEvent.globScan] ∧
      w.lsblkOk = true ∧ lsblkMountOf w.lsblkLines = none) := by
  unfold check_existing_icelink_mount
  cases hl : w.lsblkOk with
  | false => exact Or.inl rfl
  | true =>
    cases hm : lsblkMountOf w.lsblkLines with
    | some mp => exact Or.inl rfl
    | none =>
      cases hg : globMountOf w with
      | some m => exact Or.inr ⟨rfl, rfl, rfl⟩
      | none => exact Or.inr ⟨rfl, rfl, rfl⟩

/-- Helper: the `lsblk` scan is always the first emitted event of the
existing-mount check. -/
theorem lsblk_mem_check (w : MWorld) :
    PEvent.lsblkScan ∈ (check_existing_icelink_mount w).2 := by
  rcases check_existing_trace w with h | ⟨h, _, _⟩ <;> rw [h] <;> simp

/-- Helper: no event of the existing-mount check is the strategy-A write. -/
theorem check_existing_events (w : MWorld) (x : PEvent)
    (hx : x ∈ (check_existing_icelink_mount w).2) : isIcesprogWrite x = false := by
  rcases check_existing_trace w with h | ⟨h, _, _⟩ <;> rw [h] at hx <;>
    simp only [List.mem_cons, List.mem_singleton, List.not_mem_nil, or_false] at hx
  · subst hx; rfl
  · rcases hx with hx | hx <;> (subst hx; rfl)

/-- Helper: discovery-and-mount emits either no further event or only the
mount-command event after the trace it is given. -/
theorem famountInner_trace (w : MWorld) (tr : List PEvent) :
    (famountInner w tr).2 = tr ∨
    (famountInner w tr).2 = tr ++ [PEvent.mountAttempt] := by
  by_cases hl : w.lsblkOk
  · rcases hdev : deviceOf w with _ | d
    · left; simp [famountInner, hl, hdev]
    · have hfd : famountInner w tr = famountDev w d tr := by
        simp [famountInner, hl, hdev]
      rw [hfd]
      rcases hmo : w.mountOutputOf d with _ | mp
      · by_cases hmk : w.makedirsOk
        · right; simp [famountDev, hmo, hmk]
        · left; simp [famountDev, hmo, hmk]
      · left; simp [famountDev, hmo]
  · left; simp [famountInner, hl]

/-- Helper: when the existing-mount check found nothing, the mount attempt's
trace is that check's trace (re-run, line 519) followed by the
device-discovery event and possibly the mount-command event. -/
theorem famount_none_trace (w : MWorld)
    (h : (check_existing_icelink_mount w).1 = none) :
    (find_and_mount_icelink_device w).2 =
      (check_existing_icelink_mount w).2 ++ [PEvent.deviceDiscovery] ∨
    (find_and_mount_icelink_device w).2 =
      (check_existing_icelink_mount w).2 ++ [PEvent.deviceDiscovery] ++
        [PEvent.mountAttempt] := by
  rcases hce : check_existing_icelink_mount w with ⟨res, tr0⟩
  have h' : res = none := by rw [hce] at h; exact h
  subst h'
  have hfam : find_and_mount_icelink_device w =
      famountInner w (tr0 ++ [PEvent.deviceDiscovery]) := by
    unfold find_and_mount_icelink_device
    rw [hce]
  rw [hfam]
  exact famountInner_trace w (tr0 ++ [PEvent.deviceDiscovery])

/-- Helper: if the existing-mount check found a mount, `find_icelink_mount`
returns it with only that check's trace. -/
theorem find_some (w : MWorld) (mp : String) (tr : List PEvent)
    (hce : check_existing_icelink_mount w = (some mp, tr)) :
    find_icelink_mount w = (Except.ok mp, tr) := by
  unfold find_icelink_mount
  rw [hce]

/-- Helper: if the existing-mount check found nothing, `find_icelink_mount`
defers to the mount attempt, concatenating the traces. -/
theorem find_none (w : MWorld) (tr : List PEvent)
    (hce : check_existing_icelink_mount w = (none, tr)) :
    find_icelink_mount w =
      ((find_and_mount_icelink_device w).1, tr ++ (find_and_mount_icelink_device w).2) := by
  unfold find_icelink_mount
  rw [hce]

/-- Helper: no event of the whole mount resolution is the strategy-A write. -/
theorem find_icelink_events (w : MWorld) (x : PEvent)
    (hx : x ∈ (find_icelink_mount w).2) : isIcesprogWrite x = false := by
  rcases hce : check_existing_icelink_mount w with ⟨res, tr0⟩
  rcases res with _ | mp
  · rw [find_none w tr0 hce] at hx
    simp only [List.mem_append] at hx
    rcases hx with hx | hx
    · exact check_existing_events w x (by rw [hce]; exact hx)
    · rcases famount_none_trace w (by rw [hce]) with h2 | h2 <;> rw [h2] at hx <;>
        simp only [List.mem_append] at hx
      · rcases hx with hx | hx
        · exact check_existing_events w x hx
        · simp only [List.mem_singleton] at hx; subst hx; rfl
      · rcases hx with (hx | hx) | hx
        · exact check_existing_events w x hx
        · simp only [List.mem_singleton] at hx; subst hx; rfl
        · simp only [List.mem_singleton] at hx; subst hx; rfl
  · rw [find_some w mp tr0 hce] at hx
    exact check_existing_events w x (by rw [hce]; exact hx)

/-- Helper: the `lsblk` scan always appears in the mount-resolution trace. -/
theorem lsblk_mem_find (w : MWorld) :
    PEvent.lsblkScan ∈ (find_icelink_mount w).2 := by
  rcases hce : check_existing_icelink_mount w with ⟨res, tr0⟩
  have h0 : PEvent.lsblkScan ∈ tr0 := by
    have := lsblk_mem_check w
    rw [hce] at this
    exact this
  rcases res with _ | mp
  · rw [find_none w tr0 hce]
    simp [h0]
  · rw [find_some w mp tr0 hce]
    exact h0

/-- C9: mount resolution attempts its three discovery methods strictly in
order (each method's events can only appear when the previous methods ran
and yielded nothing): the glob scan runs only after a successful `lsblk`
listing whose label scan found no mount point; device discovery (method 3)
runs only when the whole existing-mount check (methods 1 and 2) returned
nothing; the mount command runs only after device discovery; and a
`MountError` (`FPGABuildError`) is returned only when methods 1 and 2
yielded nothing and method 3 was reached and failed. -/
theorem c9_mount_order (w : MWorld) :
    (PEvent.globScan ∈ (find_icelink_mount w).2 →
      w.lsblkOk = true ∧ lsblkMountOf w.lsblkLines = none) ∧
    (PEvent.deviceDiscovery ∈ (find_icelink_mount w).2 →
      (check_existing_icelink_mount w).1 = none) ∧
    (PEvent.mountAttempt ∈ (find_icelink_mount w).2 →
      (check_existing_icelink_mount w).1 = none ∧
      PEvent.deviceDiscovery ∈ (find_icelink_mount w).2) ∧
    (∀ e, (find_icelink_mount w).1 = Except.error e →
      (check_existing_icelink_mount w).1 = none ∧
      PEvent.deviceDiscovery ∈ (find_icelink_mount w).2) := by
  rcases hce : check_existing_icelink_mount w with ⟨res, tr0⟩
  have hglob : PEvent.globScan ∈ tr0 →
      w.lsblkOk = true ∧ lsblkMountOf w.lsblkLines = none := by
    intro hx
    rcases check_existing_trace w with h | ⟨h, hl, hm⟩
    · have h' : tr0 = [PEvent.lsblkScan] := by rw [hce] at h; exact h
      rw [h'] at hx
      simp at hx
    · exact ⟨hl, hm⟩
  have hddtr : PEvent.deviceDiscovery ∈ tr0 → False := by
    intro hx
    rcases check_existing_trace w with h | ⟨h, hl, hm⟩
    · have h' : tr0 = [PEvent.lsblkScan] := by rw [hce] at h; exact h
      rw [h'] at hx; simp at hx
    · have h' : tr0 = [PEvent.lsblkScan, PEvent.globScan] := by rw [hce] at h; exact h
      rw [h'] at hx; simp at hx
  have hmatr : PEvent.mountAttempt ∈ tr0 → False := by
    intro hx
    rcases check_existing_trace w with h | ⟨h, hl, hm⟩
    · have h' : tr0 = [PEvent.lsblkScan] := by rw [hce] at h; exact h
      rw [h'] at hx; simp at hx
    · have h' : tr0 = [PEvent.lsblkScan, PEvent.globScan] := by rw [hce] at h; exact h
      rw [h'] at hx; simp at hx
  rcases res with _ | mp
  · -- methods 1 and 2 yielded nothing
    have hfind := find_none w tr0 hce
    have hnone : (check_existing_icelink_mount w).1 = none := by rw [hce]
    have hdd : PEvent.deviceDiscovery ∈ (find_icelink_mount w).2 := by
      rw [hfind]
      rcases famount_none_trace w hnone with h2 | h2 <;> rw [h2] <;> simp
    refine ⟨?_, fun _ => rfl, fun _ => ⟨rfl, hdd⟩, fun e _ => ⟨rfl, hdd⟩⟩
    intro hx
    rw [hfind] at hx
    simp only [List.mem_append] at hx
    rcases hx with hx | hx
    · exact hglob hx
    · rcases famount_none_trace w hnone with h2 | h2 <;> rw [h2] at hx <;>
        simp only [List.mem_append] at hx
      · rcases hx with hx | hx
        · rw [hce] at hx; exact hglob hx
        · simp at hx
      · rcases hx with (hx | hx) | hx
        · rw [hce] at hx; exact hglob hx
        · simp at hx
        · simp at hx
  · -- an existing mount was found: no discovery, no mount command, no error
    have hfind := find_some w mp tr0 hce
    refine ⟨?_, ?_, ?_, ?_⟩
    · intro hx; rw [hfind] at hx; exact hglob hx
    · intro hx; rw [hfind] at hx; exact absurd hx hddtr
    · intro hx; rw [hfind] at hx; exact absurd hx hmatr
    · intro e he; rw [hfind] at he; simp at he

/-- C9 witness: in a world where `lsblk` succeeds but lists no labelled
volume, every glob is empty and no device node qualifies, resolution fails
only after reaching device discovery, with methods 1 and 2 having yielded
nothing. -/
theorem c9_mount_order_witness :
    (check_existing_icelink_mount mwNotFound).1 = none ∧
    PEvent.deviceDiscovery ∈ (find_icelink_mount mwNotFound).2 :=
  (c9_mount_order mwNotFound).2.2.2
    (PyExc.fpgaBuildError
      ("iCELink device not found. Check USB connection and ensure device is in "
        ++ "mass storage mode.")) (by rfl)

/-- Helper: every failure of a strategy-A attempt is an `FPGABuildError`
(`run_cmd` wraps every failure mode in the domain error). -/
theorem aAttemptRes_err_fpga (w : ProgWorld) (n : Nat) (e : PyExc)
    (h : aAttemptRes w n = Except.error e) : isFpgaErr e = true := by
  unfold aAttemptRes runCmd at h
  cases hs : w.shutdownDuringA n with
  | true =>
    simp [hs] at h
    subst h; rfl
  | false =>
    cases ho : w.icesprogOutcome n with
    | success => simp [hs, ho] at h
    | exitNonzero s => simp [hs, ho] at h; subst h; rfl
    | timedOut => simp [hs, ho] at h; subst h; rfl
    | notFound => simp [hs, ho] at h; subst h; rfl
    | otherFail m => simp [hs, ho] at h; subst h; rfl

/-- Helper: no event of a drag-and-drop attempt is the strategy-A write. -/
theorem dragAttemptRes_no_write (w : ProgWorld) (n : Nat) (x : PEvent)
    (hx : x ∈ (dragAttemptRes w n).2) : isIcesprogWrite x = false := by
  unfold dragAttemptRes at hx
  rcases hf : find_icelink_mount (w.mw n) with ⟨fr, ftr⟩
  rw [hf] at hx
  have hftr : ∀ y, y ∈ ftr → isIcesprogWrite y = false := by
    intro y hy
    exact find_icelink_events (w.mw n) y (by rw [hf]; exact hy)
  rcases fr with e | mp
  · exact hftr x hx
  · cases hw : w.writable n mp with
    | false => simp only [hw, Bool.false_eq_true, if_false] at hx; exact hftr x hx
    | true =>
      cases hc : w.copyOk n with
      | false =>
        simp only [hw, hc, Bool.false_eq_true, if_true, if_false] at hx
        rcases List.mem_append.mp hx with h | h
        · exact hftr x h
        · simp only [List.mem_singleton] at h; subst h; rfl
      | true =>
        cases hd : w.destExists n with
        | false =>
          simp only [hw, hc, hd, Bool.false_eq_true, if_true, if_false] at hx
          rcases List.mem_append.mp hx with h | h
          · exact hftr x h
          · simp only [List.mem_cons, List.mem_singleton, List.not_mem_nil,
              or_false] at h
            rcases h with h | h <;> (subst h; rfl)
        | true =>
          simp only [hw, hc, hd, if_true] at hx
          rcases List.mem_append.mp hx with h | h
          · exact hftr x h
          · simp only [List.mem_cons, List.mem_singleton, List.not_mem_nil,
              or_false] at h
            rcases h with h | h <;> (subst h; rfl)

/-- Helper: the `lsblk` scan appears in every drag-and-drop attempt's
events (strategy B always begins by resolving the mount). -/
theorem lsblk_mem_drag (w : ProgWorld) (n : Nat) :
    PEvent.lsblkScan ∈ (dragAttemptRes w n).2 := by
  unfold dragAttemptRes
  rcases hf : find_icelink_mount (w.mw n) with ⟨fr, ftr⟩
  have h0 : PEvent.lsblkScan ∈ ftr := by
    have := lsblk_mem_find (w.mw n)
    rw [hf] at this
    exact this
  rcases fr with e | mp
  · exact h0
  · cases hw : w.writable n mp with
    | false => simp [hw, h0]
    | true =>
      cases hc : w.copyOk n with
      | false => simp [hw, hc, h0]
      | true =>
        cases hd : w.destExists n with
        | false => simp [hw, hc, hd, h0]
        | true => simp [hw, hc, hd, h0]

/-- C7: with `force_dragdrop` unset, if strategy A (direct `icesprog` write)
fails on every one of its 3 attempts (and no shutdown is requested),
strategy B (mass-storage copy) is attempted automatically under its own
independent 3-attempt retry — its mount resolution appears in the trace —
and `program_fpga` returns `True` iff some strategy-B attempt succeeds and
`False` iff every strategy-B attempt fails (failure is reported only when
strategy B is also exhausted). -/
theorem c7_fallback (w : ProgWorld)
    (hA : ∀ n, n < 3 → isOkE (aAttemptRes w n) = false)
    (hsA : ∀ n, w.shutdownA n = false)
    (hsB : ∀ n, w.shutdownB n = false) :
    PEvent.lsblkScan ∈ (program_fpga w false).2 ∧
    ((program_fpga w false).1 = Except.ok true ↔
      ∃ n, n < 3 ∧ isOkE (dragAttemptRes w n).1 = true) ∧
    ((program_fpga w false).1 = Except.ok false ↔
      ∀ n, n < 3 → isOkE (dragAttemptRes w n).1 = false) := by
  -- strategy A exhausts with an FPGABuildError
  have hAiff := retry_ok_iff (aAttemptRes w) (fun _ tr => tr ++ [PEvent.icesprogWrite])
    w.shutdownA 3 2 "icesprog programming" hsA 3 0 [] rfl
  rcases hpA : progA w with ⟨resA, trA, slA⟩
  have hAres : (retryAux (obliviousOp (aAttemptRes w)
      (fun _ tr => tr ++ [PEvent.icesprogWrite])) w.shutdownA 3 2
      "icesprog programming" 3 0 []) = (resA, trA, slA) := hpA
  rw [hAres] at hAiff
  rcases resA with eA | vA
  · have heA : isFpgaErr eA = true := by
      refine retry_err_fpga (icesprogOp w) w.shutdownA 3 2 "icesprog programming"
        ?_ 3 0 [] eA (by rw [show (retryAux (icesprogOp w) w.shutdownA 3 2
          "icesprog programming" 3 0 []) = (Except.error eA, trA, slA) from hpA])
      intro n s e' h'
      exact aAttemptRes_err_fpga w n e' h'
    rcases eA with m | m
    case otherExc => simp [isFpgaErr] at heA
    case fpgaBuildError =>
      -- fallback to strategy B
      have hBiff := retry_ok_iff (fun n => (dragAttemptRes w n).1)
        (fun n tr => tr ++ (dragAttemptRes w n).2) w.shutdownB 3 2
        "drag-and-drop programming" hsB 3 0 trA rfl
      rcases hpB : progB w trA with ⟨resB, trB, slB⟩
      have hBres : (retryAux (obliviousOp (fun n => (dragAttemptRes w n).1)
          (fun n tr => tr ++ (dragAttemptRes w n).2)) w.shutdownB 3 2
          "drag-and-drop programming" 3 0 trA) = (resB, trB, slB) := hpB
      rw [hBres] at hBiff
      have htrB : PEvent.lsblkScan ∈ trB := by
        have : PEvent.lsblkScan ∈ (retryAux (appendOp (fun n => (dragAttemptRes w n).1)
            (fun n => (dragAttemptRes w n).2)) w.shutdownB 3 2
            "drag-and-drop programming" 3 0 trA).2.1 :=
          retry_first_events (fun n => (dragAttemptRes w n).1)
            (fun n => (dragAttemptRes w n).2) w.shutdownB 3 2
            "drag-and-drop programming" 2 0 trA (hsB 0) PEvent.lsblkScan
            (lsblk_mem_drag w 0)
        rw [show (retryAux (appendOp (fun n => (dragAttemptRes w n).1)
            (fun n => (dragAttemptRes w n).2)) w.shutdownB 3 2
            "drag-and-drop programming" 3 0 trA) = (resB, trB, slB) from hpB] at this
        exact this
      rcases resB with eB | vB
      · -- strategy B exhausted: program_fpga reports False
        have hprog : program_fpga w false = (Except.ok false, trB) := by
          simp only [program_fpga, Bool.false_eq_true, if_false, hpA, hpB]
        rw [hprog]
        refine ⟨htrB, ?_, ?_⟩
        · constructor
          · intro h; simp at h
          · rintro ⟨n, hn, hok⟩
            have hcontra : isOkE (Except.error eB : Except PyExc Bool) = true :=
              hBiff.mpr ⟨n, by omega, hn, hok⟩
            simp [isOkE] at hcontra
        · constructor
          · intro _ n hn
            cases hx : isOkE (dragAttemptRes w n).1 with
            | false => rfl
            | true =>
              have hcontra : isOkE (Except.error eB : Except PyExc Bool) = true :=
                hBiff.mpr ⟨n, by omega, hn, hx⟩
              simp [isOkE] at hcontra
          · intro _; rfl
      · -- strategy B succeeded: program_fpga reports True
        have hprog : program_fpga w false = (Except.ok true, trB) := by
          simp only [program_fpga, Bool.false_eq_true, if_false, hpA, hpB]
        rw [hprog]
        have hEx : ∃ n, n < 3 ∧ isOkE (dragAttemptRes w n).1 = true := by
          rcases hBiff.mp (by rfl) with ⟨n, h0n, hn3, hok⟩
          exact ⟨n, hn3, hok⟩
        refine ⟨htrB, ?_, ?_⟩
        · exact ⟨fun _ => hEx, fun _ => rfl⟩
        · constructor
          · intro h; simp at h
          · intro hall
            rcases hEx with ⟨n, hn, hok⟩
            rw [hall n hn] at hok
            exact absurd hok (by simp)
  · -- impossible: strategy A cannot succeed when every attempt fails
    have : isOkE (Except.ok vA : Except PyExc Bool) = true := rfl
    rcases hAiff.mp this with ⟨n, h0n, hn3, hok⟩
    rw [hA n hn3] at hok
    exact absurd hok (by simp)

/-- C7 witness: `icesprog` always failing, drag-and-drop succeeding on its
first attempt via an already-mounted volume: programming reports success. -/
theorem c7_fallback_witness :
    (program_fpga pwFallbackOk false).1 = Except.ok true :=
  ((c7_fallback pwFallbackOk
      (by intro n hn; rfl)
      (fun _ => rfl) (fun _ => rfl)).2.1).mpr
    ⟨0, by omega, by rfl⟩

/-- C8: with `force_dragdrop = true`, the direct-write strategy is never
entered at any point of `program_fpga`: no event of the run is the
`icesprog` write (lines 911-917 call only the drag-and-drop path, whose
mount resolution and copy steps never invoke `icesprog`). -/
theorem c8_no_direct_write (w : ProgWorld) :
    ((program_fpga w true).2.all fun x => !isIcesprogWrite x) = true := by
  rcases hpB : progB w [] with ⟨resB, trB, slB⟩
  have htr : (program_fpga w true).2 = trB := by
    rcases resB with eB | vB <;> simp [program_fpga, hpB]
  rw [htr, List.all_eq_true]
  intro x hx
  have hx' : x ∈ (retryAux (appendOp (fun n => (dragAttemptRes w n).1)
      (fun n => (dragAttemptRes w n).2)) w.shutdownB 3 2
      "drag-and-drop programming" 3 0 []).2.1 := by
    rw [show (retryAux (appendOp (fun n => (dragAttemptRes w n).1)
      (fun n => (dragAttemptRes w n).2)) w.shutdownB 3 2
      "drag-and-drop programming" 3 0 []) = (resB, trB, slB) from hpB]
    exact hx
  rcases retry_trace_mem (fun n => (dragAttemptRes w n).1)
      (fun n => (dragAttemptRes w n).2) w.shutdownB 3 2
      "drag-and-drop programming" 3 0 [] x hx' with h | ⟨n, h⟩
  · simp at h
  · rw [dragAttemptRes_no_write w n x h]
    rfl

/-- C10: `program_fpga` is total at its boundary: for every world and every
`force_dragdrop` flag it returns a boolean and never propagates an
exception — every failure of the attempted strategies is an
`FPGABuildError` (by `run_cmd`'s and the drag-and-drop wrapper's blanket
conversion), so it is caught by the `except FPGABuildError` /
`except Exception` clauses and converted into a `False` return. -/
theorem c10_total (w : ProgWorld) (force_dragdrop : Bool) :
    isOkE (program_fpga w force_dragdrop).1 = true := by
  cases force_dragdrop with
  | true =>
    rcases hpB : progB w [] with ⟨resB, trB, slB⟩
    rcases resB with eB | vB <;> simp [program_fpga, hpB, isOkE]
  | false =>
    rcases hpA : progA w with ⟨resA, trA, slA⟩
    rcases resA with eA | vA
    · have heA : isFpgaErr eA = true := by
        refine retry_err_fpga (icesprogOp w) w.shutdownA 3 2 "icesprog programming"
          ?_ 3 0 [] eA (by rw [show (retryAux (icesprogOp w) w.shutdownA 3 2
            "icesprog programming" 3 0 []) = (Except.error eA, trA, slA) from hpA])
        intro n s e' h'
        exact aAttemptRes_err_fpga w n e' h'
      rcases eA with m | m
      case otherExc => simp [isFpgaErr] at heA
      case fpgaBuildError =>
        rcases hpB : progB w trA with ⟨resB, trB, slB⟩
        rcases resB with eB | vB <;> simp [program_fpga, hpA, hpB, isOkE]
    · simp [program_fpga, hpA, isOkE]

/-! ## Theorems about the Driver's environment handling (claim C2) -/

/-- Helper: the GPIO branch restores the environment snapshot exactly on the
caught-exception paths and keeps the augmented environment on every other
return. -/
theorem gpioBranch_env (w : MainWorld) (g : String) :
    (((gpioBranch w g).2.2 = ExitKind.fullSuccess ∨
        (gpioBranch w g).2.2 = ExitKind.errCaught) →
      (gpioBranch w g).2.1 = w.env0) ∧
    ((gpioBranch w g).2.2 ≠ ExitKind.fullSuccess →
      (gpioBranch w g).2.2 ≠ ExitKind.errCaught →
      (gpioBranch w g).2.1 = mainAugEnv w) := by
  unfold gpioBranch
  repeat' split
  all_goals refine ⟨fun h => ?_, fun h1 h2 => ?_⟩
  all_goals simp_all

/-- Helper: the build-and-program tail restores the environment snapshot
exactly on the full-success and caught-exception paths, and keeps the
augmented environment on the missing-PCF, build-only and
programming-failure returns. -/
theorem buildProgramBranch_env (w : MainWorld) :
    (((buildProgramBranch w).2.2 = ExitKind.fullSuccess ∨
        (buildProgramBranch w).2.2 = ExitKind.errCaught) →
      (buildProgramBranch w).2.1 = w.env0) ∧
    ((buildProgramBranch w).2.2 ≠ ExitKind.fullSuccess →
      (buildProgramBranch w).2.2 ≠ ExitKind.errCaught →
      (buildProgramBranch w).2.1 = mainAugEnv w) := by
  unfold buildProgramBranch
  repeat' split
  all_goals refine ⟨fun h => ?_, fun h1 h2 => ?_⟩
  all_goals simp_all

/-- C2 counterexample: a build-only run exits with code 0 through the
`return 0` of line 1193, which does not restore the environment: the
variable `OSS_CAD_ROOT` introduced by toolchain augmentation is still
present in the process environment after the run, though absent from the
pristine pre-run snapshot.  This refutes the claim that every exit path
restores the snapshot. -/
theorem c2_counterexample :
    (main_run cw2).1 = 0 ∧
    (main_run cw2).2.2 = ExitKind.buildOnlyDone ∧
    envLookup (main_run cw2).2.1 "OSS_CAD_ROOT" = some "/opt/oss" ∧
    envLookup cw2.env0 "OSS_CAD_ROOT" = none := by
  refine ⟨by decide, by decide, by decide, by decide⟩

/-- C2 amended: the pristine environment snapshot is restored exactly on the
full build-and-program success path (lines 1214-1215) and on the three
caught-exception paths (lines 1220-1246: domain errors — including
validation, tool-resolution and build failures — interrupts, and unexpected
faults).  Every other exit path — the passthrough device commands, the
device-missing and GPIO usage-error returns, the JTAG rejection, the
missing-input returns, the build-only return and the programming-failure
return — returns with the augmented environment still installed. -/
theorem c2_amended (w : MainWorld) :
    (((main_run w).2.2 = ExitKind.fullSuccess ∨
        (main_run w).2.2 = ExitKind.errCaught) →
      (main_run w).2.1 = w.env0) ∧
    ((main_run w).2.2 ≠ ExitKind.fullSuccess →
      (main_run w).2.2 ≠ ExitKind.errCaught →
      (main_run w).2.1 = mainAugEnv w) := by
  unfold main_run
  repeat' split
  all_goals first
    | exact gpioBranch_env w (w.args.gpio.getD "")
    | exact buildProgramBranch_env w
    | (refine ⟨fun h => ?_, fun h1 h2 => ?_⟩ <;> simp_all)

/-- C2 amended, witness: an erase run whose `icesprog -e` fails exits
through the `FPGABuildError` handler with the environment restored to the
pristine snapshot. -/
theorem c2_amended_witness : (main_run cw2b).2.1 = cw2b.env0 :=
  (c2_amended cw2b).1 (Or.inr (by rfl))

end FlashFpga
